import Mathlib

/-!
Verification of the voice-mirror-electron core against its specification.

Shallow embedding of the Python sources:
  * `src/python/audio/vad.py`        — Silero VAD windowing and energy fallback
  * `src/python/providers/inbox.py`  — inbox send / deduplication / response polling
  * `src/python/voice_agent.py`      — audio callback, run loop, speak tail
  * `src/python/audio/state.py`      — shared AudioState container

Machine floats are modelled as rationals (`ℚ`), wall-clock instants as
rationals, and the ONNX inference session as an abstract state-threading
function.  All definitions are executable.
-/

set_option maxRecDepth 8000

namespace VoiceMirror

/-! ## VAD engine (src/python/audio/vad.py) -/

/-- Models `_WINDOW_SIZE = 512` (vad.py line 11): Silero expects 512-sample windows. -/
def WINDOW_SIZE : Nat := 512

/-- The two VAD modes accepted by `SileroVAD.process` (vad.py lines 15-24). -/
inductive VadMode
  | recording
  | follow_up
deriving DecidableEq, Repr

/-- Models `_THRESHOLDS` (vad.py lines 15-18): 0.5 for both modes in the neural path. -/
def vadThreshold : VadMode → ℚ
  | .recording => 1/2
  | .follow_up => 1/2

/-- Models `_ENERGY_THRESHOLDS` (vad.py lines 21-24): fallback thresholds 0.01 / 0.03. -/
def energyThreshold : VadMode → ℚ
  | .recording => 1/100
  | .follow_up => 3/100

/-- Models `np.abs` on a single sample. -/
def absQ (x : ℚ) : ℚ := if x < 0 then -x else x

/-- Models `np.abs(chunk).mean()`: mean absolute amplitude of a chunk
(division by zero yields 0 for the empty chunk, which the callback never
produces). -/
def meanAbs (chunk : List ℚ) : ℚ :=
  (chunk.map absQ).sum / chunk.length

/-- Models `SileroVAD._energy_fallback` (vad.py lines 116-121): score is the mean
absolute amplitude, speech iff strictly above the mode threshold. -/
def energyFallback (chunk : List ℚ) (mode : VadMode) : Bool × ℚ :=
  let energy := meanAbs chunk
  (decide (energyThreshold mode < energy), energy)

/-- The mutable session state of `SileroVAD`: the LSTM hidden state (kept
abstract as a type parameter `S`, since the network itself is out of scope)
and the sample accumulation buffer `_buffer`. -/
structure VadState (S : Type) where
  hstate : S
  buffer : List ℚ

/-- Result of the window-consuming loop inside `SileroVAD.process`. -/
structure WindowsOut (S : Type) where
  maxProb : ℚ
  hstate : S
  buffer : List ℚ
  calls : Nat

/-- The `while len(self._buffer) >= _WINDOW_SIZE` loop of `SileroVAD.process`
(vad.py lines 102-107): repeatedly slice a 512-sample window off the front,
run it through the session (`run`, modelling `_infer_window` together with the
hidden-state update), track the maximum probability, and count inference
calls. -/
def consumeWindows {S : Type} (run : List ℚ → S → ℚ × S)
    (h : S) (buf : List ℚ) (maxProb : ℚ) (calls : Nat) : WindowsOut S :=
  if hlen : WINDOW_SIZE ≤ buf.length then
    let pr := run (buf.take WINDOW_SIZE) h
    consumeWindows run pr.2 (buf.drop WINDOW_SIZE)
      (if maxProb < pr.1 then pr.1 else maxProb) (calls + 1)
  else
    { maxProb := maxProb, hstate := h, buffer := buf, calls := calls }
termination_by buf.length
decreasing_by
  simp only [WINDOW_SIZE, List.length_drop] at *
  omega

/-- Result of one `SileroVAD.process` call in the neural path. -/
structure VadProcOut (S : Type) where
  is_speech : Bool
  prob : ℚ
  state : VadState S
  calls : Nat

/-- Models `SileroVAD.process`, neural path (vad.py lines 98-110): append the chunk
to the buffer, consume full windows, compare the maximum probability with the
mode threshold (`max_prob >= threshold`). -/
def vadProcess {S : Type} (run : List ℚ → S → ℚ × S)
    (st : VadState S) (chunk : List ℚ) (mode : VadMode) : VadProcOut S :=
  let out := consumeWindows run st.hstate (st.buffer ++ chunk) 0 0
  { is_speech := decide (vadThreshold mode ≤ out.maxProb)
    prob := out.maxProb
    state := { hstate := out.hstate, buffer := out.buffer }
    calls := out.calls }

/-- A sequence of `process` calls; returns the final session state and the
total number of single-window inference calls performed. -/
def vadRun {S : Type} (run : List ℚ → S → ℚ × S) (mode : VadMode) :
    VadState S → List (List ℚ) → VadState S × Nat
  | st, [] => (st, 0)
  | st, c :: cs =>
      let r := vadProcess run st c mode
      let rest := vadRun run mode r.state cs
      (rest.1, r.calls + rest.2)

/-- Total number of samples in a sequence of chunks. -/
def totalLen (cs : List (List ℚ)) : Nat :=
  (cs.map List.length).sum

lemma consumeWindows_spec {S : Type} (run : List ℚ → S → ℚ × S) :
    ∀ (n : Nat) (h : S) (buf : List ℚ) (m : ℚ) (k : Nat), buf.length = n →
      (consumeWindows run h buf m k).calls = k + n / WINDOW_SIZE ∧
      (consumeWindows run h buf m k).buffer.length = n % WINDOW_SIZE := by
  intro n
  induction n using Nat.strong_induction_on with
  | _ n ih =>
    intro h buf m k hlen
    rw [consumeWindows]
    by_cases hge : WINDOW_SIZE ≤ buf.length
    · simp only [hge, dite_true]
      have hdrop : (buf.drop WINDOW_SIZE).length = n - WINDOW_SIZE := by
        simp [List.length_drop, hlen]
      have hlt : n - WINDOW_SIZE < n := by
        simp only [WINDOW_SIZE] at hge ⊢
        omega
      obtain ⟨hc, hb⟩ := ih (n - WINDOW_SIZE) hlt
        ((run (buf.take WINDOW_SIZE) h).2) (buf.drop WINDOW_SIZE)
        (if m < (run (buf.take WINDOW_SIZE) h).1 then (run (buf.take WINDOW_SIZE) h).1 else m)
        (k + 1) hdrop
      refine ⟨?_, ?_⟩
      · rw [hc]
        simp only [WINDOW_SIZE] at hge hlen ⊢
        omega
      · rw [hb]
        simp only [WINDOW_SIZE] at hge hlen ⊢
        omega
    · simp only [hge, dite_false]
      have : n < WINDOW_SIZE := by omega
      constructor
      · simp only [WINDOW_SIZE] at this ⊢
        omega
      · simp only [WINDOW_SIZE] at this ⊢
        omega

lemma consumeWindows_short {S : Type} (run : List ℚ → S → ℚ × S)
    (h : S) (buf : List ℚ) (m : ℚ) (k : Nat) (hlt : buf.length < WINDOW_SIZE) :
    consumeWindows run h buf m k = { maxProb := m, hstate := h, buffer := buf, calls := k } := by
  rw [consumeWindows]
  simp [Nat.not_le.mpr hlt]

lemma vadRun_spec {S : Type} (run : List ℚ → S → ℚ × S) (mode : VadMode) :
    ∀ (cs : List (List ℚ)) (st : VadState S), st.buffer.length < WINDOW_SIZE →
      (vadRun run mode st cs).2 = (st.buffer.length + totalLen cs) / WINDOW_SIZE ∧
      (vadRun run mode st cs).1.buffer.length = (st.buffer.length + totalLen cs) % WINDOW_SIZE := by
  intro cs
  induction cs with
  | nil =>
    intro st hst
    simp only [vadRun, totalLen, List.map_nil, List.sum_nil, Nat.add_zero]
    constructor
    · simp only [WINDOW_SIZE] at hst ⊢
      omega
    · simp only [WINDOW_SIZE] at hst ⊢
      omega
  | cons c cs ih =>
    intro st hst
    obtain ⟨hc1, hb1⟩ := consumeWindows_spec run (st.buffer ++ c).length st.hstate
      (st.buffer ++ c) 0 0 rfl
    have hblen : (vadProcess run st c mode).state.buffer.length =
        (st.buffer.length + c.length) % WINDOW_SIZE := by
      simp only [vadProcess]
      rw [hb1]
      simp [List.length_append]
    have hcalls : (vadProcess run st c mode).calls =
        (st.buffer.length + c.length) / WINDOW_SIZE := by
      simp only [vadProcess]
      rw [hc1]
      simp [List.length_append]
    have hmod : (vadProcess run st c mode).state.buffer.length < WINDOW_SIZE := by
      rw [hblen]
      simp only [WINDOW_SIZE]
      omega
    obtain ⟨ihc, ihb⟩ := ih ((vadProcess run st c mode).state) hmod
    simp only [vadRun]
    constructor
    · rw [ihc, hcalls, hblen]
      simp only [totalLen, List.map_cons, List.sum_cons, WINDOW_SIZE]
      omega
    · rw [ihb, hblen]
      simp only [totalLen, List.map_cons, List.sum_cons, WINDOW_SIZE]
      omega

/-- Claim C8: with the model loaded, the total number of single-window
inference calls over any sequence of `process` calls starting from a reset
state equals `L / 512` where `L` is the total input length, with `L % 512`
samples left in the accumulator; and a call that accumulates fewer than 512
pending samples performs zero inference calls and returns probability 0. -/
theorem c8_vad_windowing {S : Type} (run : List ℚ → S → ℚ × S) (h0 : S)
    (mode : VadMode) (cs : List (List ℚ)) (st : VadState S) (chunk : List ℚ)
    (hshort : st.buffer.length + chunk.length < WINDOW_SIZE) :
    ((vadRun run mode { hstate := h0, buffer := [] } cs).2 = totalLen cs / WINDOW_SIZE ∧
     (vadRun run mode { hstate := h0, buffer := [] } cs).1.buffer.length
        = totalLen cs % WINDOW_SIZE) ∧
    ((vadProcess run st chunk mode).calls = 0 ∧ (vadProcess run st chunk mode).prob = 0) := by
  refine ⟨?_, ?_⟩
  · have h := vadRun_spec run mode cs { hstate := h0, buffer := [] }
      (by simp [WINDOW_SIZE])
    simpa using h
  · have hlen : (st.buffer ++ chunk).length < WINDOW_SIZE := by
      simp [List.length_append, hshort]
    simp only [vadProcess]
    rw [consumeWindows_short run st.hstate (st.buffer ++ chunk) 0 0 hlen]
    exact ⟨rfl, rfl⟩

/-- A trivial inference session used to instantiate C8 at a concrete input. -/
def constRun : List ℚ → Unit → ℚ × Unit := fun _ s => (0, s)

/-- A 200-sample leftover buffer used to instantiate C8 at a concrete input. -/
def smallVadState : VadState Unit := ⟨⟨⟩, List.replicate 200 (0:ℚ)⟩

/-- Witness for C8: a 1280-sample call from reset performs `1280 / 512 = 2`
inference calls leaving `1280 % 512 = 256` samples buffered, and a call
accumulating only `200 + 100 < 512` samples performs none. -/
theorem c8_vad_windowing_witness :
    (smallVadState.buffer.length + (List.replicate 100 (0:ℚ)).length < WINDOW_SIZE) ∧
    (((vadRun constRun .recording (⟨⟨⟩, []⟩ : VadState Unit)
        [List.replicate 1280 (0:ℚ)]).2 = totalLen [List.replicate 1280 (0:ℚ)] / WINDOW_SIZE ∧
      (vadRun constRun .recording (⟨⟨⟩, []⟩ : VadState Unit)
        [List.replicate 1280 (0:ℚ)]).1.buffer.length
          = totalLen [List.replicate 1280 (0:ℚ)] % WINDOW_SIZE) ∧
     ((vadProcess constRun smallVadState (List.replicate 100 (0:ℚ)) .recording).calls = 0 ∧
      (vadProcess constRun smallVadState (List.replicate 100 (0:ℚ)) .recording).prob = 0)) :=
  ⟨by simp only [smallVadState, List.length_replicate, WINDOW_SIZE]; omega,
   c8_vad_windowing constRun ⟨⟩ .recording
     [List.replicate 1280 (0:ℚ)] smallVadState
     (List.replicate 100 (0:ℚ))
     (by simp only [smallVadState, List.length_replicate, WINDOW_SIZE]; omega)⟩

/-- Claim C9: in energy-fallback mode, a chunk whose mean absolute amplitude
lies strictly between the recording threshold (0.01) and the follow-up
threshold (0.03) is classified as speech in `recording` mode and not speech in
`follow_up` mode, the returned score being the mean absolute amplitude. -/
theorem c9_energy_fallback_asymmetry (chunk : List ℚ)
    (h1 : energyThreshold .recording < meanAbs chunk)
    (h2 : meanAbs chunk < energyThreshold .follow_up) :
    energyFallback chunk .recording = (true, meanAbs chunk) ∧
    energyFallback chunk .follow_up = (false, meanAbs chunk) := by
  constructor
  · simp only [energyFallback]
    rw [decide_eq_true h1]
  · simp only [energyFallback]
    rw [decide_eq_false (not_lt.mpr (le_of_lt h2))]

lemma meanAbs_single : meanAbs [(1:ℚ)/50] = 1/50 := by
  norm_num [meanAbs, absQ]

/-- Witness for C9: the constant chunk at amplitude 1/50 = 0.02 lies strictly
between the two fallback thresholds. -/
theorem c9_energy_fallback_asymmetry_witness :
    (energyThreshold .recording < meanAbs [(1:ℚ)/50] ∧
     meanAbs [(1:ℚ)/50] < energyThreshold .follow_up) ∧
    (energyFallback [(1:ℚ)/50] .recording = (true, meanAbs [(1:ℚ)/50]) ∧
     energyFallback [(1:ℚ)/50] .follow_up = (false, meanAbs [(1:ℚ)/50])) :=
  ⟨⟨by rw [meanAbs_single]; norm_num [energyThreshold],
    by rw [meanAbs_single]; norm_num [energyThreshold]⟩,
   c9_energy_fallback_asymmetry [(1:ℚ)/50]
     (by rw [meanAbs_single]; norm_num [energyThreshold])
     (by rw [meanAbs_single]; norm_num [energyThreshold])⟩

/-! ## Inbox channel (src/python/providers/inbox.py) -/

/-- Models `_MAX_MESSAGES = 100` (inbox.py line 14): trim oldest when exceeded. -/
def MAX_MESSAGES : Nat := 100

/-- Models `_CLEANUP_INTERVAL = 1800` seconds (inbox.py line 15). -/
def CLEANUP_INTERVAL : ℚ := 1800

/-- Models `MCP_CLI_PROVIDERS` (inbox.py line 71). -/
def MCP_CLI_PROVIDERS : List String := ["claude", "opencode", "kimi-cli"]

/-- Whitespace removed by Python `str.strip` (space, tab, newline, return). -/
def isSpaceChar (c : Char) : Bool :=
  c == ' ' || c == '\t' || c == '\n' || c == '\r'

/-- Python `str.strip` on a character list. -/
def stripChars (l : List Char) : List Char :=
  ((l.dropWhile isSpaceChar).reverse.dropWhile isSpaceChar).reverse

/-- Models `hash(message.strip().lower())` (inbox.py line 189).  The Python hash is a
deterministic function of the normalized text and the dedup logic only ever
compares hashes for equality, so the hash is modelled by the normalized
character list itself. -/
def normHash (text : String) : List Char :=
  (stripChars text.toList).map Char.toLower

/-- An inbox message as persisted in `inbox.json`
(`read_by` is always appended empty and never read by the core, so omitted). -/
structure InboxMsg where
  id : String
  sender : String
  message : String
  timestamp : ℚ
  thread_id : String
deriving DecidableEq, Repr

/-- The mutable state of `InboxManager` relevant to `send`: the document's
message list, `_last_message_hash`, `_last_message_time`, and
`_last_cleanup_time`. -/
structure InboxState where
  messages : List InboxMsg
  last_message_hash : Option (List Char)
  last_message_time : ℚ
  last_cleanup_time : ℚ
deriving DecidableEq, Repr

/-- The cap `data["messages"][-_MAX_MESSAGES:]` applied when the count
exceeds `_MAX_MESSAGES`. -/
def capMessages (msgs : List InboxMsg) : List InboxMsg :=
  if MAX_MESSAGES < msgs.length then msgs.drop (msgs.length - MAX_MESSAGES) else msgs

/-- Models `InboxManager._maybe_cleanup` (inbox.py lines 124-160) with the default
`max_age_hours = 2`: at most every 30 minutes, drop messages older than two
hours and enforce the count cap; the document is rewritten only when messages
were removed.  Timestamps are rationals, so the ISO-parse-failure branch that
conservatively keeps a message never fires in the model. -/
def maybeCleanup (now : ℚ) (s : InboxState) : InboxState :=
  if now - s.last_cleanup_time < CLEANUP_INTERVAL then s
  else
    let s1 : InboxState := { s with last_cleanup_time := now }
    if s1.messages.isEmpty then s1
    else
      let cutoff := now - 2 * 3600
      let recent := capMessages (s1.messages.filter (fun m => cutoff < m.timestamp))
      if recent.length < s1.messages.length then { s1 with messages := recent } else s1

/-- Models `InboxManager.send` (inbox.py lines 177-227).  The fresh `msg-<uuid>`
identifier is supplied by the caller as `freshId`, the configured sender name
as `sender`, and `time.time()` as `now`. -/
def send (now : ℚ) (freshId sender message : String) (s : InboxState) :
    Option String × InboxState :=
  let msgHash := normHash message
  if s.last_message_hash = some msgHash ∧ now - s.last_message_time < 2 then
    (none, s)
  else
    let s1 : InboxState := { s with last_message_hash := some msgHash, last_message_time := now }
    let s2 := maybeCleanup now s1
    let msg : InboxMsg :=
      { id := freshId, sender := sender, message := message,
        timestamp := now, thread_id := "voice-mirror" }
    (some freshId, { s2 with messages := capMessages (s2.messages ++ [msg]) })

lemma maybeCleanup_hash (now : ℚ) (s : InboxState) :
    (maybeCleanup now s).last_message_hash = s.last_message_hash := by
  simp only [maybeCleanup]
  split_ifs <;> rfl

lemma maybeCleanup_time (now : ℚ) (s : InboxState) :
    (maybeCleanup now s).last_message_time = s.last_message_time := by
  simp only [maybeCleanup]
  split_ifs <;> rfl

lemma send_sent_state (now : ℚ) (freshId sender text : String) (s : InboxState)
    (h : ¬(s.last_message_hash = some (normHash text) ∧ now - s.last_message_time < 2)) :
    (send now freshId sender text s).1 = some freshId ∧
    (send now freshId sender text s).2.last_message_hash = some (normHash text) ∧
    (send now freshId sender text s).2.last_message_time = now := by
  simp only [send]
  rw [if_neg h]
  refine ⟨rfl, ?_, ?_⟩
  · simp [maybeCleanup_hash]
  · simp [maybeCleanup_time]

lemma send_dedup_state (now : ℚ) (freshId sender text : String) (s : InboxState)
    (h1 : s.last_message_hash = some (normHash text))
    (h2 : now - s.last_message_time < 2) :
    send now freshId sender text s = (none, s) := by
  simp only [send]
  rw [if_pos ⟨h1, h2⟩]

/-- Claim C6: for two `send` calls with identical text, a second call within
2 seconds of a first (non-deduplicated) call returns `none` and leaves the
inbox state — in particular the message list — untouched, while the first
call returns the fresh message id; a resend of the same text more than
2 seconds later returns a message id again. -/
theorem c6_send_dedup (s : InboxState) (text sender : String)
    (now1 now2 now3 : ℚ) (id1 id2 id3 : String)
    (hfirst : ¬(s.last_message_hash = some (normHash text) ∧ now1 - s.last_message_time < 2))
    (h2 : now2 - now1 < 2) (h3 : 2 < now3 - now1) :
    (send now1 id1 sender text s).1 = some id1 ∧
    send now2 id2 sender text (send now1 id1 sender text s).2 =
      (none, (send now1 id1 sender text s).2) ∧
    (send now3 id3 sender text (send now1 id1 sender text s).2).1 = some id3 := by
  obtain ⟨hfst, hhash, htime⟩ := send_sent_state now1 id1 sender text s hfirst
  refine ⟨hfst, ?_, ?_⟩
  · refine send_dedup_state now2 id2 sender text _ hhash ?_
    rw [htime]
    exact h2
  · have hno : ¬((send now1 id1 sender text s).2.last_message_hash = some (normHash text) ∧
        now3 - (send now1 id1 sender text s).2.last_message_time < 2) := by
      rw [htime]
      rintro ⟨-, hlt⟩
      linarith
    exact (send_sent_state now3 id3 sender text _ hno).1

/-- Witness for C6 at a fresh inbox state and concrete times 100, 101, 103. -/
theorem c6_send_dedup_witness :
    (¬((⟨[], none, 0, 0⟩ : InboxState).last_message_hash = some (normHash "hello") ∧
        (100:ℚ) - (⟨[], none, 0, 0⟩ : InboxState).last_message_time < 2) ∧
     (101:ℚ) - 100 < 2 ∧ (2:ℚ) < 103 - 100) ∧
    ((send 100 "msg-a" "user" "hello" ⟨[], none, 0, 0⟩).1 = some "msg-a" ∧
     send 101 "msg-b" "user" "hello" (send 100 "msg-a" "user" "hello" ⟨[], none, 0, 0⟩).2 =
       (none, (send 100 "msg-a" "user" "hello" ⟨[], none, 0, 0⟩).2) ∧
     (send 103 "msg-c" "user" "hello"
        (send 100 "msg-a" "user" "hello" ⟨[], none, 0, 0⟩).2).1 = some "msg-c") :=
  ⟨⟨by simp, by norm_num, by norm_num⟩,
   c6_send_dedup ⟨[], none, 0, 0⟩ "hello" "user" 100 101 103 "msg-a" "msg-b" "msg-c"
     (by simp) (by norm_num) (by norm_num)⟩

/-- Substring test (Python `needle in haystack`) on character lists. -/
def containsSub (needle haystack : List Char) : Bool :=
  haystack.tails.any (fun t => needle.isPrefixOf t)

/-- Python `sender.lower()` on the character list of a string. -/
def lowerChars (s : String) : List Char :=
  s.toList.map Char.toLower

/-- Models `InboxManager._sender_matches` (inbox.py lines 162-175): the provider id
must occur in the lowercased sender, or the provider is an MCP CLI provider
and the sender contains "claude". -/
def senderMatches (sender provider_id : String) : Bool :=
  containsSub provider_id.toList (lowerChars sender) ||
    (MCP_CLI_PROVIDERS.contains provider_id && containsSub "claude".toList (lowerChars sender))

/-- One iteration body of `InboxManager._poll_for_response` (inbox.py lines
257-284): locate the sent message by id, then scan the messages after it for
the first one from a matching sender in the `voice-mirror` thread carrying a
non-empty text. -/
def findResponse (provider_id myId : String) (msgs : List InboxMsg) : Option String :=
  if msgs.isEmpty then none
  else
    match msgs.findIdx? (fun m => m.id == myId) with
    | none => none
    | some i =>
        match (msgs.drop (i + 1)).find?
            (fun m => senderMatches m.sender provider_id
              && (m.thread_id == "voice-mirror") && (m.message != "")) with
        | some m => some m.message
        | none => none

/-- The `while (time.time() - start_time) < timeout` loop of
`_poll_for_response` (inbox.py lines 254-287): each iteration sleeps 0.5s and
then reads the inbox; `snaps n` is the document observed by the n-th read.
`fuel` bounds the recursion and is taken at least `2 * timeout + 1`, in which
case the fuel-exhaustion branch is unreachable. -/
def pollForResponse (provider_id myId : String) (snaps : Nat → List InboxMsg)
    (timeout : ℚ) : ℚ → Nat → String
  | _, 0 => ""
  | elapsed, fuel + 1 =>
    if elapsed < timeout then
      match findResponse provider_id myId (snaps 0) with
      | some r => r
      | none =>
          pollForResponse provider_id myId (fun n => snaps (n + 1)) timeout (elapsed + 1/2) fuel
    else ""

/-- Outcome of `InboxManager.wait_for_response`: the returned text, the value
of `awaiting_response` while the call is polling, and its value after the
`finally` block has run. -/
structure WaitOutcome where
  response : String
  awaiting_during : Bool
  awaiting_after : Bool
deriving DecidableEq, Repr

/-- Models `InboxManager.wait_for_response` (inbox.py lines 229-250): sets
`awaiting_response`, polls, and clears the flag in `finally`. -/
def waitForResponse (provider_id myId : String) (snaps : Nat → List InboxMsg)
    (timeout : ℚ) (fuel : Nat) : WaitOutcome :=
  { response := pollForResponse provider_id myId snaps timeout 0 fuel
    awaiting_during := true
    awaiting_after := false }

lemma pollForResponse_none (provider_id myId : String) :
    ∀ (fuel : Nat) (snaps : Nat → List InboxMsg) (timeout elapsed : ℚ),
      (∀ n, findResponse provider_id myId (snaps n) = none) →
      pollForResponse provider_id myId snaps timeout elapsed fuel = "" := by
  intro fuel
  induction fuel with
  | zero =>
    intro snaps timeout elapsed hn
    rfl
  | succ fuel ih =>
    intro snaps timeout elapsed hn
    simp only [pollForResponse]
    split_ifs with ht
    · simp only [hn 0]
      exact ih (fun n => snaps (n + 1)) timeout (elapsed + 1/2) (fun n => hn (n + 1))
    · rfl

/-- Claim C7: a `wait_for_response` call during which no matching provider
reply is ever observed returns the empty string once the timeout deadline
elapses, and the `awaiting_response` flag is true exactly for the duration of
the call — false after it returns. -/
theorem c7_wait_for_response_timeout (provider_id myId : String)
    (snaps : Nat → List InboxMsg) (timeout : ℚ) (fuel : Nat)
    (hnever : ∀ n, findResponse provider_id myId (snaps n) = none) :
    (waitForResponse provider_id myId snaps timeout fuel).response = "" ∧
    (waitForResponse provider_id myId snaps timeout fuel).awaiting_during = true ∧
    (waitForResponse provider_id myId snaps timeout fuel).awaiting_after = false :=
  ⟨pollForResponse_none provider_id myId fuel snaps timeout 0 hnever, rfl, rfl⟩

/-- Witness for C7: polling an inbox that stays empty for a 90-second timeout
(181 iterations of fuel) returns the empty string with the flag cleared. -/
theorem c7_wait_for_response_timeout_witness :
    (∀ n : Nat, findResponse "claude" "msg-1" ((fun _ => []) n) = none) ∧
    ((waitForResponse "claude" "msg-1" (fun _ => []) 90 181).response = "" ∧
     (waitForResponse "claude" "msg-1" (fun _ => []) 90 181).awaiting_during = true ∧
     (waitForResponse "claude" "msg-1" (fun _ => []) 90 181).awaiting_after = false) :=
  ⟨fun _ => rfl,
   c7_wait_for_response_timeout "claude" "msg-1" (fun _ => []) 90 181 (fun _ => rfl)⟩

/-! ## Voice agent (src/python/voice_agent.py, src/python/audio/state.py) -/

/-- Models `SILENCE_TIMEOUT = 3.0` seconds (voice_agent.py line 60). -/
def SILENCE_TIMEOUT : ℚ := 3

/-- Models `CONVERSATION_WINDOW = 5.0` seconds (voice_agent.py line 61). -/
def CONVERSATION_WINDOW : ℚ := 5

/-- The values taken by `VoiceMirror._recording_source`
(voice_agent.py line 257). -/
inductive RecSource
  | wake_word
  | ptt
  | call
  | follow_up
deriving DecidableEq, Repr

/-- Models `ActivationMode` (voice_agent.py lines 83-86). -/
inductive ActivationMode
  | wakeWord
  | callMode
  | pushToTalk
deriving DecidableEq, Repr

/-- The fields of `VoiceMirror` read or written by `audio_callback` and by
the run-loop body (`oww_loaded` models `self.oww_model is not None`). -/
structure AgentState where
  is_listening : Bool
  is_recording : Bool
  is_processing : Bool
  recording_source : Option RecSource
  audio_buffer : List (List ℚ)
  last_speech_time : ℚ
  in_conversation : Bool
  conversation_end_time : ℚ
  ptt_process_pending : Bool
  activation_mode : ActivationMode
  oww_loaded : Bool
deriving DecidableEq, Repr

/-- The debounced outcome of `check_ptt_trigger`
(voice_agent.py lines 410-447). -/
inductive PttAction
  | start
  | stop
deriving DecidableEq, Repr

/-- The per-block inputs of one `audio_callback` invocation: the wall-clock
time, the mono audio block, the debounced push-to-talk trigger, the
externally controlled `is_call_active()` flag, and the wake-word detector's
verdict on this block (`process_wake_word` wraps an out-of-scope
classifier). -/
structure CallbackInput where
  now : ℚ
  audio : List ℚ
  ptt_action : Option PttAction
  call_active : Bool
  wake_detected : Bool
deriving DecidableEq, Repr

/-- The push-to-talk trigger handling at the top of `audio_callback`
(voice_agent.py lines 828-844): a start trigger opens a `ptt` recording with
a fresh buffer; a stop trigger while recording stops it, marks processing and
raises `_ptt_process_pending` for the run loop. -/
def pttPhase (i : CallbackInput) (s : AgentState) : AgentState :=
  if i.ptt_action = some PttAction.start ∧ s.is_recording = false then
    { s with is_recording := true, recording_source := some RecSource.ptt,
             audio_buffer := [], last_speech_time := i.now }
  else if i.ptt_action = some PttAction.stop ∧ s.is_recording = true ∧
      s.is_processing = false then
    { s with is_recording := false, is_processing := true, ptt_process_pending := true }
  else s

/-- The listening / recording branch chain of `audio_callback`
(voice_agent.py lines 846-901), evaluated on the state left by the
push-to-talk phase: when listening and not recording, push-to-talk mode waits
for a trigger, call mode starts a `call` recording above energy 0.008, an open
conversation window either expires or starts a `follow_up` recording above
energy 0.03, and wake-word mode starts a `wake_word` recording on detection —
each start resets the buffer; when recording and not processing, the block is
appended and energy above 0.01 refreshes `last_speech_time`. -/
def listenPhase (i : CallbackInput) (s : AgentState) : AgentState :=
  if s.is_listening = true ∧ s.is_recording = false then
    if s.activation_mode = ActivationMode.pushToTalk then s
    else if s.activation_mode = ActivationMode.callMode ∨ i.call_active = true then
      if 8/1000 < meanAbs i.audio then
        { s with is_recording := true, recording_source := some RecSource.call,
                 audio_buffer := [], last_speech_time := i.now }
      else s
    else if s.in_conversation = true then
      if s.conversation_end_time < i.now then
        { s with in_conversation := false }
      else if 3/100 < meanAbs i.audio then
        { s with is_recording := true, recording_source := some RecSource.follow_up,
                 audio_buffer := [], last_speech_time := i.now, in_conversation := false }
      else s
    else if s.activation_mode = ActivationMode.wakeWord ∧ s.oww_loaded = true then
      if i.wake_detected = true then
        { s with is_recording := true, recording_source := some RecSource.wake_word,
                 audio_buffer := [], last_speech_time := i.now }
      else s
    else s
  else if s.is_recording = true ∧ s.is_processing = false then
    if 1/100 < meanAbs i.audio then
      { s with audio_buffer := s.audio_buffer ++ [i.audio], last_speech_time := i.now }
    else { s with audio_buffer := s.audio_buffer ++ [i.audio] }
  else s

/-- One `audio_callback` invocation (voice_agent.py lines 804-901): the
trigger phase runs first, then the listening / recording chain on the
updated state. -/
def audioCallback (i : CallbackInput) (s : AgentState) : AgentState :=
  listenPhase i (pttPhase i s)

/-- A sequence of callback invocations. -/
def runCallback (inputs : List CallbackInput) (s : AgentState) : AgentState :=
  inputs.foldl (fun st i => audioCallback i st) s

/-- The subset of `AudioState` (src/python/audio/state.py) touched by
`start_recording`. -/
structure AudioStateRec where
  is_recording : Bool
  recording_source : Option RecSource
  audio_buffer : List (List ℚ)
  last_speech_time : ℚ
deriving DecidableEq, Repr

/-- Models `AudioState.start_recording` (state.py lines 62-68): flips on recording,
tags the source, empties the buffer and stamps the speech time. -/
def startRecording (source : RecSource) (now : ℚ) (st : AudioStateRec) : AudioStateRec :=
  { st with is_recording := true, recording_source := some source,
            audio_buffer := [], last_speech_time := now }

/-- Models `VoiceMirror.process_recording` (voice_agent.py lines 903-959) up to the
turn routing: an empty buffer returns immediately with no transcription;
otherwise the chunks are concatenated and handed to the transcriber
(`transcribe`), and the transcript is dropped unless non-empty with at least
3 characters after stripping (lines 916-919).  The first component records
whether the transcriber was invoked, the second the surviving transcript. -/
def processRecording (transcribe : List ℚ → String) (buffer : List (List ℚ)) :
    Bool × Option String :=
  if buffer.isEmpty then (false, none)
  else
    let text := transcribe buffer.flatten
    (true, if text ≠ "" ∧ 3 ≤ (stripChars text.toList).length then some text else none)

/-- Result of one iteration of the orchestrator loop body: the successor
state, whether `process_recording` was awaited (draining the buffer), and
whether the transcriber was invoked by it. -/
structure RunOutcome where
  state : AgentState
  drained : Bool
  transcriberInvoked : Bool
deriving Repr

/-- One iteration of the main loop of `VoiceMirror.run` (voice_agent.py lines
1200-1220): the push-to-talk pending branch takes precedence and processes
immediately; otherwise a recording with
`now - last_speech_time >= SILENCE_TIMEOUT` is stopped, marked processing,
drained via `process_recording` (which transcribes exactly when the buffer is
non-empty), and `is_processing` is cleared when `process_recording`
returns. -/
def runLoopIter (now : ℚ) (s : AgentState) : RunOutcome :=
  if s.ptt_process_pending = true then
    let s1 := { s with ptt_process_pending := false }
    { state := { s1 with audio_buffer := [], is_processing := false },
      drained := true, transcriberInvoked := !s1.audio_buffer.isEmpty }
  else if s.is_recording = true ∧ s.is_processing = false ∧
      SILENCE_TIMEOUT ≤ now - s.last_speech_time then
    let s1 := { s with is_recording := false, is_processing := true }
    { state := { s1 with audio_buffer := [], is_processing := false },
      drained := true, transcriberInvoked := !s1.audio_buffer.isEmpty }
  else { state := s, drained := false, transcriberInvoked := false }

/-- The conversation-window fields of `VoiceMirror` written by the tail of
`speak`. -/
structure ConvState where
  in_conversation : Bool
  conversation_end_time : ℚ
deriving DecidableEq, Repr

/-- Models `should_enter_conversation` (voice_agent.py lines 739-743): requested by
the caller, no active call, and the recording source of the turn is
`wake_word` or `follow_up`. -/
def shouldEnterConversation (enterConv callActive : Bool)
    (source : Option RecSource) : Bool :=
  enterConv && !callActive &&
    (source == some RecSource.wake_word || source == some RecSource.follow_up)

/-- The `finally` tail of `VoiceMirror.speak` (voice_agent.py lines 737-753):
the conversation window opens for `CONVERSATION_WINDOW` seconds exactly when
`should_enter_conversation` holds; otherwise the window fields are left
untouched. -/
def speakTail (enterConv callActive : Bool) (source : Option RecSource)
    (now : ℚ) (s : ConvState) : ConvState :=
  if shouldEnterConversation enterConv callActive source then
    { in_conversation := true, conversation_end_time := now + CONVERSATION_WINDOW }
  else s

/-- Execution points of one silence-stopped turn, in program order: the run
loop stops the recording; `process_recording` drains, transcribes, sends to
the inbox, awaits the provider response and speaks it; then control returns
to the run loop. -/
inductive TurnPhase
  | stopRecording
  | drainBuffer
  | transcribeAudio
  | sendInbox
  | awaitResponse
  | speakResponse
  | branchDone
deriving DecidableEq, Repr

/-- The points inside `process_recording` (voice_agent.py lines 903-959)
paired with the value `is_processing` holds there: `process_recording` never
writes `is_processing`, so the entry value `flag` is observed throughout,
including during the whole `wait_for_claude_response` poll (line 950). -/
def processRecordingPhases (flag : Bool) : List (TurnPhase × Bool) :=
  [(.drainBuffer, flag), (.transcribeAudio, flag), (.sendInbox, flag),
   (.awaitResponse, flag), (.speakResponse, flag)]

/-- The silence-stop branch of the run loop (voice_agent.py lines 1213-1220):
`is_processing` is set true together with the stop, `process_recording` is
awaited with the flag still true, and the flag is cleared only after it
returns. -/
def silenceStopPhases : List (TurnPhase × Bool) :=
  (.stopRecording, true) :: processRecordingPhases true ++ [(.branchDone, false)]

/-! ## Claims about the run loop, callback and speak tail -/

/-- A wake-word recording with stale speech time, used to exercise the
silence-stop branch. -/
def c1State : AgentState :=
  { is_listening := true, is_recording := true, is_processing := false,
    recording_source := some RecSource.wake_word, audio_buffer := [[0]],
    last_speech_time := 0, in_conversation := false, conversation_end_time := 0,
    ptt_process_pending := false, activation_mode := ActivationMode.wakeWord,
    oww_loaded := true }

/-- Claim C1 counterexample: a wake-word recording followed by only 5 seconds
of silence — less than the claimed 10-second default — is nevertheless
stopped and drained by the silence path, because `SILENCE_TIMEOUT` is
hardcoded to 3 seconds. -/
theorem c1_counterexample :
    SILENCE_TIMEOUT = 3 ∧
    (5:ℚ) - c1State.last_speech_time < 10 ∧
    c1State.recording_source = some RecSource.wake_word ∧
    (runLoopIter 5 c1State).state.is_recording = false ∧
    (runLoopIter 5 c1State).drained = true := by
  refine ⟨rfl, by norm_num [c1State], rfl, ?_, ?_⟩ <;>
    norm_num [runLoopIter, c1State, SILENCE_TIMEOUT]

/-- Claim C1 amended: the silence timeout is the hardcoded 3 seconds (not a
configurable 10): whenever no push-to-talk processing is pending, a recording
— of any source, the loop never inspects it — with at least 3 seconds since
`last_speech_time` is stopped, drained and transcribed (when non-empty) and
the processing flag cleared; with less than 3 seconds of silence the
iteration changes nothing. -/
theorem c1_silence_stop_amended (now : ℚ) (s : AgentState)
    (hpend : s.ptt_process_pending = false)
    (hrec : s.is_recording = true) (hproc : s.is_processing = false) :
    (SILENCE_TIMEOUT ≤ now - s.last_speech_time →
       (runLoopIter now s).state.is_recording = false ∧
       (runLoopIter now s).drained = true ∧
       (runLoopIter now s).state.audio_buffer = [] ∧
       (runLoopIter now s).state.is_processing = false ∧
       (runLoopIter now s).transcriberInvoked = !s.audio_buffer.isEmpty) ∧
    (now - s.last_speech_time < SILENCE_TIMEOUT →
       runLoopIter now s = { state := s, drained := false, transcriberInvoked := false }) := by
  constructor
  · intro hto
    simp [runLoopIter, hpend, hrec, hproc, hto]
  · intro hlt
    simp [runLoopIter, hpend, hrec, hproc, not_le.mpr hlt]

/-- Witness for the amended C1: the concrete wake-word recording at 5 seconds
of silence is stopped with its buffer drained and the transcriber invoked. -/
theorem c1_silence_stop_amended_witness :
    (c1State.ptt_process_pending = false ∧ c1State.is_recording = true ∧
     c1State.is_processing = false ∧ SILENCE_TIMEOUT ≤ (5:ℚ) - c1State.last_speech_time) ∧
    ((runLoopIter 5 c1State).state.is_recording = false ∧
     (runLoopIter 5 c1State).drained = true ∧
     (runLoopIter 5 c1State).state.audio_buffer = [] ∧
     (runLoopIter 5 c1State).state.is_processing = false ∧
     (runLoopIter 5 c1State).transcriberInvoked = !c1State.audio_buffer.isEmpty) :=
  ⟨⟨rfl, rfl, rfl, by norm_num [c1State, SILENCE_TIMEOUT]⟩,
   (c1_silence_stop_amended 5 c1State rfl rfl rfl).1
     (by norm_num [c1State, SILENCE_TIMEOUT])⟩

/-- A drained buffer of 1280 samples: 0.08 seconds at 16 kHz. -/
def shortBuffer : List (List ℚ) := [List.replicate 1280 0]

/-- Claim C2 counterexample: a drained buffer of 1280 samples — far below the
claimed 0.4-second floor of 6400 samples at 16 kHz — is nevertheless handed
to the transcriber: `process_recording` has no minimum-duration check. -/
theorem c2_counterexample :
    shortBuffer.flatten.length < 6400 ∧
    (processRecording (fun _ => "hello there") shortBuffer).1 = true := by
  constructor
  · simp [shortBuffer]
  · rfl

/-- Claim C2 amended: `process_recording` invokes the transcriber on every
non-empty drained buffer, however short — the only drain-time discard is the
empty buffer; too-short filtering happens only on the transcript (fewer than
3 characters after stripping). -/
theorem c2_no_duration_floor (transcribe : List ℚ → String) (buffer : List (List ℚ)) :
    (processRecording transcribe buffer).1 = !buffer.isEmpty := by
  cases hb : buffer.isEmpty <;> simp [processRecording, hb]

/-- Claim C3 counterexample: a turn whose recording source is `wake_word`,
spoken while the externally controlled call flag is active, does not open the
conversation window — refuting the claim that a wake-word turn always sets
`in_conversation`. -/
theorem c3_counterexample :
    (speakTail true true (some RecSource.wake_word) 7 ⟨false, 0⟩).in_conversation = false :=
  rfl

/-- Claim C3 amended: after speaking, the conversation window is newly opened
iff the caller requested conversation mode, no call is active, and the
recording source is `wake_word` or `follow_up` (so it ends up open iff that
condition holds or it was already open — a `ptt` turn never sets it); when it
opens, `conversation_end_time` is the future instant `now +
CONVERSATION_WINDOW`. -/
theorem c3_conversation_gating (enterConv callActive : Bool)
    (source : Option RecSource) (now : ℚ) (s : ConvState) :
    (((speakTail enterConv callActive source now s).in_conversation = true) ↔
      (shouldEnterConversation enterConv callActive source = true ∨
        s.in_conversation = true)) ∧
    (shouldEnterConversation enterConv callActive source = true →
      (speakTail enterConv callActive source now s).conversation_end_time
          = now + CONVERSATION_WINDOW ∧ now < now + CONVERSATION_WINDOW) ∧
    shouldEnterConversation enterConv true source = false ∧
    shouldEnterConversation enterConv callActive (some RecSource.ptt) = false ∧
    shouldEnterConversation true false (some RecSource.wake_word) = true ∧
    shouldEnterConversation true false (some RecSource.follow_up) = true := by
  refine ⟨?_, ?_, ?_, ?_, rfl, rfl⟩
  · cases hc : shouldEnterConversation enterConv callActive source <;>
      simp [speakTail, hc]
  · intro hc
    refine ⟨by simp [speakTail, hc], ?_⟩
    have h5 : (0:ℚ) < CONVERSATION_WINDOW := by norm_num [CONVERSATION_WINDOW]
    linarith
  · simp [shouldEnterConversation]
  · cases enterConv <;> cases callActive <;> rfl

/-- Witness for the amended C3: a wake-word turn with no active call opens
the window ending at `7 + CONVERSATION_WINDOW`. -/
theorem c3_conversation_gating_witness :
    shouldEnterConversation true false (some RecSource.wake_word) = true ∧
    ((speakTail true false (some RecSource.wake_word) 7 ⟨false, 0⟩).conversation_end_time
        = 7 + CONVERSATION_WINDOW ∧ (7:ℚ) < 7 + CONVERSATION_WINDOW) :=
  ⟨rfl, (c3_conversation_gating true false (some RecSource.wake_word) 7 ⟨false, 0⟩).2.1 rfl⟩

/-- An idle listening state in push-to-talk activation mode. -/
def idleState : AgentState :=
  { is_listening := true, is_recording := false, is_processing := false,
    recording_source := none, audio_buffer := [], last_speech_time := 0,
    in_conversation := false, conversation_end_time := 0,
    ptt_process_pending := false, activation_mode := ActivationMode.pushToTalk,
    oww_loaded := false }

/-- A callback input carrying a push-to-talk start trigger at time 0. -/
def pttStartInput : CallbackInput :=
  { now := 0, audio := [], ptt_action := some PttAction.start,
    call_active := false, wake_detected := false }

/-- A triggerless callback input arriving 130 seconds later. -/
def laterInput : CallbackInput :=
  { now := 130, audio := [], ptt_action := none,
    call_active := false, wake_detected := false }

/-- The state reached from `idleState` by the push-to-talk start callback:
recording from source `ptt` with the (empty) trigger block appended. -/
def pttRecState : AgentState :=
  { is_listening := true, is_recording := true, is_processing := false,
    recording_source := some RecSource.ptt, audio_buffer := [[]],
    last_speech_time := 0, in_conversation := false, conversation_end_time := 0,
    ptt_process_pending := false, activation_mode := ActivationMode.pushToTalk,
    oww_loaded := false }

/-- Claim C4 counterexample: a push-to-talk recording opened at time 0 and
still receiving callbacks at time 130 — more than 120 seconds later, with no
stop trigger ever arriving — is still open, not marked processing and not
marked pending: `audio_callback` contains no runaway-recording ceiling. -/
theorem c4_counterexample :
    (audioCallback pttStartInput idleState).is_recording = true ∧
    (audioCallback pttStartInput idleState).recording_source = some RecSource.ptt ∧
    laterInput.now - pttStartInput.now > 120 ∧
    laterInput.ptt_action = none ∧
    (audioCallback laterInput (audioCallback pttStartInput idleState)).is_recording = true ∧
    (audioCallback laterInput
        (audioCallback pttStartInput idleState)).ptt_process_pending = false ∧
    (audioCallback laterInput
        (audioCallback pttStartInput idleState)).is_processing = false := by
  have h1 : audioCallback pttStartInput idleState = pttRecState := by
    norm_num [audioCallback, pttPhase, listenPhase, idleState, pttStartInput,
      pttRecState, meanAbs]
  have hpp : pttPhase laterInput pttRecState = pttRecState := by
    simp only [pttPhase]
    rw [if_neg (fun hc => Option.noConfusion hc.1),
      if_neg (fun hc => Option.noConfusion hc.1)]
  have hnE : ¬((8:ℚ)/1000 < meanAbs laterInput.audio) := by
    norm_num [laterInput, meanAbs]
  have hnE1 : ¬((1:ℚ)/100 < meanAbs laterInput.audio) := by
    norm_num [laterInput, meanAbs]
  have h2 : audioCallback laterInput pttRecState =
      { pttRecState with audio_buffer := [[], []] } := by
    simp only [audioCallback, hpp, listenPhase]
    rw [if_neg (fun hc => Bool.noConfusion hc.2), if_pos ⟨rfl, rfl⟩, if_neg hnE1]
    rfl
  rw [h1, h2]
  refine ⟨rfl, rfl, ?_, rfl, rfl, rfl, rfl⟩
  norm_num [laterInput, pttStartInput]

/-- Claim C4 amended: the audio callback never closes an open recording of
its own accord: on any input whose push-to-talk trigger is not a stop event
an open recording stays open — regardless of how long it has been open — and
`_ptt_process_pending` is left unchanged; a push-to-talk recording ends only
via a stop trigger (or the run loop's silence timeout), there is no
120-second safety valve. -/
theorem c4_no_runaway_valve (i : CallbackInput) (s : AgentState)
    (hrec : s.is_recording = true) (hstop : i.ptt_action ≠ some PttAction.stop) :
    (audioCallback i s).is_recording = true ∧
    (audioCallback i s).ptt_process_pending = s.ptt_process_pending := by
  have h1 : ¬(i.ptt_action = some PttAction.start ∧ s.is_recording = false) := by
    rintro ⟨-, h⟩
    rw [hrec] at h
    exact Bool.noConfusion h
  have h2 : ¬(i.ptt_action = some PttAction.stop ∧ s.is_recording = true ∧
      s.is_processing = false) := by
    rintro ⟨h, -, -⟩
    exact hstop h
  have hp : pttPhase i s = s := by
    simp only [pttPhase]
    rw [if_neg h1, if_neg h2]
  have hL : ¬(s.is_listening = true ∧ s.is_recording = false) := by
    rintro ⟨-, h⟩
    rw [hrec] at h
    exact Bool.noConfusion h
  simp only [audioCallback, hp, listenPhase]
  rw [if_neg hL]
  by_cases hpr : s.is_processing = false
  · rw [if_pos ⟨hrec, hpr⟩]
    split_ifs <;> exact ⟨hrec, rfl⟩
  · rw [if_neg (fun hc => hpr hc.2)]
    exact ⟨hrec, rfl⟩

/-- An open push-to-talk recording holding one block. -/
def recState : AgentState :=
  { idleState with
    is_recording := true,
    recording_source := some RecSource.ptt,
    audio_buffer := [[0]] }

/-- Witness for the amended C4: the 130-second triggerless callback leaves an
open push-to-talk recording open with its pending flag unchanged. -/
theorem c4_no_runaway_valve_witness :
    (recState.is_recording = true ∧ laterInput.ptt_action ≠ some PttAction.stop) ∧
    ((audioCallback laterInput recState).is_recording = true ∧
     (audioCallback laterInput recState).ptt_process_pending
        = recState.ptt_process_pending) :=
  ⟨⟨rfl, by simp [laterInput]⟩,
   c4_no_runaway_valve laterInput recState rfl (by simp [laterInput])⟩

/-- Claim C5 counterexample: in the silence-stopped turn, the value of
`is_processing` observed while awaiting the provider response is true, not
false — the run loop clears the flag only after `process_recording` (which
contains the whole wait) returns. -/
theorem c5_counterexample :
    (TurnPhase.awaitResponse, true) ∈ silenceStopPhases ∧
    (TurnPhase.awaitResponse, false) ∉ silenceStopPhases := by
  constructor
  · decide
  · decide

/-- Claim C5 amended: `is_processing` remains true from the silence stop
through the entire turn — drain, transcription, inbox send, the whole
response wait and the spoken reply — and is false only at the point where
control returns to the run loop after `process_recording` returns. -/
theorem c5_processing_flag_held (p : TurnPhase) (b : Bool)
    (hmem : (p, b) ∈ silenceStopPhases) :
    (b = false ↔ p = TurnPhase.branchDone) := by
  have hall : ∀ pb ∈ silenceStopPhases, (pb.2 = false ↔ pb.1 = TurnPhase.branchDone) := by
    decide
  exact hall (p, b) hmem

/-- Witness for the amended C5 at the response-wait point of the trace. -/
theorem c5_processing_flag_held_witness :
    ((TurnPhase.awaitResponse, true) ∈ silenceStopPhases) ∧
    (true = false ↔ TurnPhase.awaitResponse = TurnPhase.branchDone) :=
  ⟨by decide, c5_processing_flag_held TurnPhase.awaitResponse true (by decide)⟩

lemma pttPhase_buffer_sub (i : CallbackInput) (s : AgentState) :
    ∀ b ∈ (pttPhase i s).audio_buffer, b ∈ s.audio_buffer := by
  simp only [pttPhase]
  split_ifs <;> intro b hb
  · simp at hb
  · exact hb
  · exact hb

lemma listenPhase_buffer_sub (i : CallbackInput) (s : AgentState) :
    ∀ b ∈ (listenPhase i s).audio_buffer, b ∈ s.audio_buffer ∨ b = i.audio := by
  simp only [listenPhase]
  split_ifs <;> intro b hb <;>
    first
      | exact Or.inl hb
      | (simp only [List.mem_append, List.mem_singleton, List.not_mem_nil] at hb <;> tauto)

lemma audioCallback_buffer_sub (i : CallbackInput) (s : AgentState) :
    ∀ b ∈ (audioCallback i s).audio_buffer, b ∈ s.audio_buffer ∨ b = i.audio := by
  intro b hb
  rcases listenPhase_buffer_sub i (pttPhase i s) b hb with h | h
  · exact Or.inl (pttPhase_buffer_sub i s b h)
  · exact Or.inr h

lemma runCallback_buffer_sub :
    ∀ (inputs : List CallbackInput) (s : AgentState) (b : List ℚ),
      b ∈ (runCallback inputs s).audio_buffer →
      b ∈ s.audio_buffer ∨ b ∈ inputs.map CallbackInput.audio := by
  intro inputs
  induction inputs with
  | nil =>
    intro s b hb
    exact Or.inl hb
  | cons i is ih =>
    intro s b hb
    rcases ih (audioCallback i s) b hb with h | h
    · rcases audioCallback_buffer_sub i s b h with h1 | h1
      · exact Or.inl h1
      · exact Or.inr (by simp [h1])
    · exact Or.inr (List.mem_cons_of_mem _ h)

lemma pttPhase_cases (i : CallbackInput) (s : AgentState)
    (h0 : s.is_recording = false) :
    pttPhase i s = s ∨
    ((pttPhase i s).audio_buffer = [] ∧ (pttPhase i s).is_recording = true ∧
     (pttPhase i s).is_processing = s.is_processing ∧
     (pttPhase i s).is_listening = s.is_listening) := by
  simp only [pttPhase]
  split_ifs with hA hB
  · exact Or.inr ⟨rfl, rfl, rfl, rfl⟩
  · rcases hB with ⟨-, hrec, -⟩
    rw [h0] at hrec
    exact absurd hrec (by simp)
  · exact Or.inl rfl

lemma listenPhase_start_buffer (i : CallbackInput) (s : AgentState)
    (h0 : s.is_recording = false)
    (h1 : (listenPhase i s).is_recording = true) :
    (listenPhase i s).audio_buffer = [] := by
  simp only [listenPhase] at h1 ⊢
  split_ifs at h1 ⊢ <;> first
    | rfl
    | simp_all

lemma callback_start_buffer (i : CallbackInput) (s : AgentState)
    (h0 : s.is_recording = false)
    (h1 : (audioCallback i s).is_recording = true) :
    (audioCallback i s).audio_buffer = [] ∨
    (audioCallback i s).audio_buffer = [i.audio] := by
  rcases pttPhase_cases i s h0 with hp | ⟨hb, hr, hpr, -⟩
  · left
    simp only [audioCallback, hp] at h1 ⊢
    exact listenPhase_start_buffer i s h0 h1
  · simp only [audioCallback] at h1 ⊢
    have hL : ¬((pttPhase i s).is_listening = true ∧ (pttPhase i s).is_recording = false) := by
      rintro ⟨-, h⟩
      rw [hr] at h
      exact Bool.noConfusion h
    simp only [listenPhase] at h1 ⊢
    rw [if_neg hL] at h1 ⊢
    by_cases hpc : (pttPhase i s).is_processing = false
    · rw [if_pos ⟨hr, hpc⟩] at h1 ⊢
      split_ifs <;> right <;> rw [hb] <;> rfl
    · rw [if_neg (fun hc => hpc hc.2)] at h1 ⊢
      left
      exact hb

/-- Claim C10: every transition of the audio callback that starts a recording
(push-to-talk trigger, call-mode energy, conversation-window follow-up, or
wake-word detection) first resets the buffer, so immediately afterwards it
holds at most the block delivered in the same invocation (the push-to-talk
path appends its own trigger block after the reset, the others leave it
empty), and after any further callbacks every block in the buffer is one
delivered at or after the start — never stale audio from a previous turn or
from idle listening; `AudioState.start_recording` likewise resets the buffer
to empty. -/
theorem c10_buffer_fresh_on_start (i : CallbackInput) (s : AgentState)
    (rest : List CallbackInput)
    (h0 : s.is_recording = false)
    (h1 : (audioCallback i s).is_recording = true) :
    ((audioCallback i s).audio_buffer = [] ∨
     (audioCallback i s).audio_buffer = [i.audio]) ∧
    (∀ b ∈ (runCallback rest (audioCallback i s)).audio_buffer,
        b = i.audio ∨ b ∈ rest.map CallbackInput.audio) ∧
    (∀ (src : RecSource) (now : ℚ) (st : AudioStateRec),
        (startRecording src now st).audio_buffer = []) := by
  refine ⟨callback_start_buffer i s h0 h1, ?_, fun _ _ _ => rfl⟩
  intro b hb
  rcases runCallback_buffer_sub rest (audioCallback i s) b hb with h | h
  · rcases callback_start_buffer i s h0 h1 with he | he
    · rw [he] at h
      exact absurd h (List.not_mem_nil b)
    · rw [he] at h
      left
      simpa using h
  · right
    exact h

/-- A listening wake-word-mode state holding a stale block from a previous
turn. -/
def staleWakeState : AgentState :=
  { is_listening := true, is_recording := false, is_processing := false,
    recording_source := none, audio_buffer := [[5]], last_speech_time := 0,
    in_conversation := false, conversation_end_time := 0,
    ptt_process_pending := false, activation_mode := ActivationMode.wakeWord,
    oww_loaded := true }

/-- A callback input carrying a wake-word detection. -/
def wakeInput : CallbackInput :=
  { now := 1, audio := [], ptt_action := none, call_active := false,
    wake_detected := true }

/-- The state reached from `staleWakeState` by the wake-word detection
callback: recording from source `wake_word` with an empty (reset) buffer. -/
def wakeRecState : AgentState :=
  { staleWakeState with
    is_recording := true,
    recording_source := some RecSource.wake_word,
    audio_buffer := [],
    last_speech_time := 1 }

lemma wake_start_eval : audioCallback wakeInput staleWakeState = wakeRecState := by
  have hP1 : ¬(wakeInput.ptt_action = some PttAction.start ∧
      staleWakeState.is_recording = false) := fun hc => Option.noConfusion hc.1
  have hP2 : ¬(wakeInput.ptt_action = some PttAction.stop ∧
      staleWakeState.is_recording = true ∧ staleWakeState.is_processing = false) :=
    fun hc => Option.noConfusion hc.1
  have hListen : staleWakeState.is_listening = true ∧
      staleWakeState.is_recording = false := ⟨rfl, rfl⟩
  have hPTT : ¬(staleWakeState.activation_mode = ActivationMode.pushToTalk) :=
    fun hc => ActivationMode.noConfusion hc
  have hCall : ¬(staleWakeState.activation_mode = ActivationMode.callMode ∨
      wakeInput.call_active = true) := by
    rintro (hc | hc)
    · exact ActivationMode.noConfusion hc
    · exact Bool.noConfusion hc
  have hConv : ¬(staleWakeState.in_conversation = true) := fun hc => Bool.noConfusion hc
  have hWake : staleWakeState.activation_mode = ActivationMode.wakeWord ∧
      staleWakeState.oww_loaded = true := ⟨rfl, rfl⟩
  have hDet : wakeInput.wake_detected = true := rfl
  simp only [audioCallback, pttPhase, listenPhase]
  rw [if_neg hP1, if_neg hP2, if_pos hListen, if_neg hPTT, if_neg hCall,
    if_neg hConv, if_pos hWake, if_pos hDet]
  rfl

/-- Witness for C10: a wake-word start from a state holding a stale block
resets the buffer, and after one more (triggerless, empty-block) callback
every block in the buffer arrived at or after the start. -/
theorem c10_buffer_fresh_on_start_witness :
    (staleWakeState.is_recording = false ∧
     (audioCallback wakeInput staleWakeState).is_recording = true) ∧
    (((audioCallback wakeInput staleWakeState).audio_buffer = [] ∨
      (audioCallback wakeInput staleWakeState).audio_buffer = [wakeInput.audio]) ∧
     (∀ b ∈ (runCallback [laterInput] (audioCallback wakeInput staleWakeState)).audio_buffer,
        b = wakeInput.audio ∨ b ∈ [laterInput].map CallbackInput.audio) ∧
     (∀ (src : RecSource) (now : ℚ) (st : AudioStateRec),
        (startRecording src now st).audio_buffer = [])) :=
  ⟨⟨rfl, by rw [wake_start_eval]; rfl⟩,
   c10_buffer_fresh_on_start wakeInput staleWakeState [laterInput] rfl
     (by rw [wake_start_eval]; rfl)⟩

end VoiceMirror
